import Mathlib

/-!
Verification of the REP (reply) socket core of a ZeroMQ-style messaging
library (`src/rep.rs`).  The socket state, its `send`/`recv` operations and
the backend's disconnect hook are shallowly embedded as pure Lean functions;
asynchronous effects (the fair-queue pull, the outbound sink push) are made
explicit parameters: `recv` takes the item delivered by the fair queue, and
`send` takes a flag telling whether the sink push succeeds.
-/

namespace ZmqRep

/-- A wire frame: an immutable byte blob.  Emptiness is semantically
significant (the delimiter marker). -/
abbrev Frame := List Nat

/-- Modelled from the spec: the codec's multipart message type (`ZmqMessage`,
defined outside `src/`) is an ordered sequence of frames supporting splitting
at an index (`split_off`, as list `take`/`drop`) and prepending another
message's frames (`prepend`, as list append on the left). -/
abbrev ZmqMessage := List Frame

/-- Opaque, comparable, cloneable byte identifier of a connection. -/
abbrev PeerIdentity := List Nat

/-- The messages pushed so far onto one peer's outbound `send_queue` sink. -/
abbrev PeerSink := List ZmqMessage

/-- Socket lifecycle events delivered to an attached monitor. -/
inductive SocketEvent where
  | connected (peer_id : PeerIdentity) : SocketEvent
  | disconnected (peer_id : PeerIdentity) : SocketEvent
deriving DecidableEq

/-- Modelled from the spec: the monitor is a bounded mpsc channel (capacity
1024 in the source); `try_send` is best-effort and drops the event when the
buffer is full. -/
structure MonitorChan where
  cap : Nat
  buf : List SocketEvent
deriving DecidableEq

/-- Best-effort push onto the monitor channel: append when there is room,
silently drop otherwise (the caller ignores the result: `let _ = ...`). -/
def MonitorChan.try_send (c : MonitorChan) (e : SocketEvent) : MonitorChan :=
  if c.buf.length < c.cap then { c with buf := c.buf ++ [e] } else c

/-- Association-list lookup in the peer registry (`DashMap::get_mut`). -/
def lookupPeer : List (PeerIdentity × PeerSink) → PeerIdentity → Option PeerSink
  | [], _ => none
  | p :: ps, pid => if p.1 = pid then some p.2 else lookupPeer ps pid

/-- Push a message onto the sink of the entry keyed by `pid`
(`peer.send_queue.send(...)` on the entry returned by `get_mut`). -/
def pushToPeer (ps : List (PeerIdentity × PeerSink)) (pid : PeerIdentity)
    (m : ZmqMessage) : List (PeerIdentity × PeerSink) :=
  ps.map (fun p => if p.1 = pid then (p.1, p.2 ++ [m]) else p)

/-- The mutable state of `RepSocket` relevant to `send`/`recv`: the saved
routing envelope, the identity of the peer owed a reply, and the backend's
peer registry (each peer reduced to its outbound sink contents). -/
structure RepSocketState where
  envelope : Option ZmqMessage
  current_request : Option PeerIdentity
  peers : List (PeerIdentity × PeerSink)
deriving DecidableEq

/-- Outcome of `RepSocket::send`.  `returnToSender` carries the reason string
and the message handed back to the caller; `sinkError` is the codec error
propagated by `?` from the sink push, which carries no message. -/
inductive SendResult where
  | ok : SendResult
  | returnToSender (reason : String) (message : ZmqMessage) : SendResult
  | sinkError : SendResult
deriving DecidableEq

/-- `RepSocket::send` from `src/rep.rs`.  `sinkOk` tells whether the await on
`peer.send_queue.send(...)` succeeds. -/
def RepSocket.send (s : RepSocketState) (message : ZmqMessage) (sinkOk : Bool) :
    SendResult × RepSocketState :=
  match s.current_request with
  | some peer_id =>
      let s1 : RepSocketState := { s with current_request := none }
      match lookupPeer s1.peers peer_id with
      | some _ =>
          let combined : ZmqMessage :=
            match s1.envelope with
            | some env => env ++ message
            | none => message
          let s2 : RepSocketState := { s1 with envelope := none }
          if sinkOk then
            (SendResult.ok, { s2 with peers := pushToPeer s2.peers peer_id combined })
          else
            (SendResult.sinkError, s2)
      | none => (SendResult.returnToSender "Client disconnected" message, s1)
  | none =>
      (SendResult.returnToSender "Unable to send reply. No request in progress" message, s)

/-- Index of the first empty frame, mirroring the scan
`for (index, frame) in m.iter().enumerate() { if frame.is_empty() ... }`. -/
def firstEmptyIdx : ZmqMessage → Option Nat
  | [] => none
  | f :: fs => if f.isEmpty then some 0 else (firstEmptyIdx fs).map (· + 1)

/-- The split point `at` computed by `recv`: one past the first empty frame,
or 1 when no frame is empty (`let mut at = 1; ... at = index + 1; break`). -/
def envelopeSplitAt (m : ZmqMessage) : Nat :=
  match firstEmptyIdx m with
  | some i => i + 1
  | none => 1

/-- Outcome of one `RepSocket::recv` step.  `panicAssert` records a failure of
`assert!(m.len() > 1)`, a process-terminating panic, not an error value. -/
inductive RecvResult where
  | ok (payload : ZmqMessage) : RecvResult
  | noMessage : RecvResult
  | panicAssert : RecvResult
deriving DecidableEq

/-- `RepSocket::recv` from `src/rep.rs`, as a step on the item the fair queue
delivers: `none` when the queue is permanently exhausted, `some (pid, m)` for
a delivered `Message::Message` from peer `pid`.  (The other match arms of the
source are `todo!()` panics and carry no state change.) -/
def RepSocket.recv (s : RepSocketState) (input : Option (PeerIdentity × ZmqMessage)) :
    RecvResult × RepSocketState :=
  match input with
  | none => (RecvResult.noMessage, s)
  | some (peer_id, m) =>
      if m.length > 1 then
        let a := envelopeSplitAt m
        (RecvResult.ok (m.drop a),
         { s with envelope := some (m.take a), current_request := some peer_id })
      else
        (RecvResult.panicAssert, s)

/-- The state of `RepSocketBackend` touched by the lifecycle hooks: the
outbound peer registry, the fair queue's inbound source registry (sources
reduced to opaque handles), and the optional monitor channel. -/
structure BackendState where
  peers : List (PeerIdentity × PeerSink)
  fair_queue_inner : List (PeerIdentity × Nat)
  socket_monitor : Option MonitorChan
deriving DecidableEq

/-- `RepSocketBackend::peer_disconnected`: best-effort `Disconnected` event to
the monitor when one is attached, then removal of the peer's registry entry. -/
def peer_disconnected (b : BackendState) (peer_id : PeerIdentity) : BackendState :=
  let b1 : BackendState :=
    match b.socket_monitor with
    | some mon =>
        let mon1 := mon.try_send (SocketEvent.disconnected peer_id)
        { b with socket_monitor := some mon1 }
    | none => b
  { b1 with peers := b1.peers.filter (fun p => !(p.1 == peer_id)) }

/-- Spec-side characterization of the envelope split point (§4.3 step 4):
either `j` is one past the first empty frame, or no frame is empty and
`j = 1`. -/
def SplitPointSpec (m : ZmqMessage) (j : Nat) : Prop :=
  (∃ i, m.get? i = some ([] : Frame) ∧ (∀ f ∈ m.take i, f ≠ ([] : Frame)) ∧ j = i + 1)
  ∨ ((∀ f ∈ m, f ≠ ([] : Frame)) ∧ j = 1)

lemma firstEmptyIdx_eq_none_iff (m : ZmqMessage) :
    firstEmptyIdx m = none ↔ ∀ f ∈ m, f ≠ ([] : Frame) := by
  induction m with
  | nil => simp [firstEmptyIdx]
  | cons f fs ih =>
      by_cases hf : f.isEmpty
      · simp [firstEmptyIdx, hf, List.isEmpty_iff.mp hf]
      · rw [List.isEmpty_iff] at hf
        simp [firstEmptyIdx, List.isEmpty_iff, hf, ih]

lemma firstEmptyIdx_eq_some (m : ZmqMessage) (i : Nat)
    (h : firstEmptyIdx m = some i) :
    m.get? i = some ([] : Frame) ∧ ∀ f ∈ m.take i, f ≠ ([] : Frame) := by
  induction m generalizing i with
  | nil => simp [firstEmptyIdx] at h
  | cons f fs ih =>
      by_cases hf : f.isEmpty
      · simp [firstEmptyIdx, hf] at h
        subst h
        simp [List.isEmpty_iff.mp hf]
      · simp [firstEmptyIdx, hf, Option.map_eq_some'] at h
        obtain ⟨j, hj, rfl⟩ := h
        rw [List.isEmpty_iff] at hf
        obtain ⟨h1, h2⟩ := ih j hj
        refine ⟨h1, ?_⟩
        intro g hg
        rcases List.mem_cons.mp hg with rfl | hg'
        · exact hf
        · exact h2 g hg'

lemma splitPointSpec_envelopeSplitAt (m : ZmqMessage) :
    SplitPointSpec m (envelopeSplitAt m) := by
  rcases h : firstEmptyIdx m with _ | i
  · exact Or.inr ⟨(firstEmptyIdx_eq_none_iff m).mp h, by simp [envelopeSplitAt, h]⟩
  · obtain ⟨h1, h2⟩ := firstEmptyIdx_eq_some m i h
    exact Or.inl ⟨i, h1, h2, by simp [envelopeSplitAt, h]⟩

lemma firstEmptyIdx_append (routing rest : ZmqMessage)
    (h : ∀ r ∈ routing, r ≠ ([] : Frame)) :
    firstEmptyIdx (routing ++ ([] : Frame) :: rest) = some routing.length := by
  induction routing with
  | nil => simp [firstEmptyIdx]
  | cons f fs ih =>
      have hf : f.isEmpty = false := by
        rcases hfe : f.isEmpty with _ | _
        · rfl
        · exact absurd (List.isEmpty_iff.mp hfe) (h f (List.mem_cons_self f fs))
      have hfs : ∀ r ∈ fs, r ≠ ([] : Frame) :=
        fun r hr => h r (List.mem_cons_of_mem f hr)
      simp [firstEmptyIdx, hf, ih hfs]

lemma lookupPeer_pushToPeer (ps : List (PeerIdentity × PeerSink))
    (pid : PeerIdentity) (m : ZmqMessage) :
    lookupPeer (pushToPeer ps pid m) pid = (lookupPeer ps pid).map (· ++ [m]) := by
  induction ps with
  | nil => simp [lookupPeer, pushToPeer]
  | cons p ps ih =>
      by_cases hp : p.1 = pid
      · simp [lookupPeer, pushToPeer, hp]
      · simpa [lookupPeer, pushToPeer, hp] using ih

lemma lookupPeer_filter_ne (ps : List (PeerIdentity × PeerSink)) (pid : PeerIdentity) :
    lookupPeer (ps.filter (fun p => !(p.1 == pid))) pid = none := by
  induction ps with
  | nil => simp [lookupPeer]
  | cons p ps ih =>
      by_cases hp : p.1 = pid
      · simp [List.filter_cons, hp, ih]
      · simp [List.filter_cons, hp, lookupPeer, ih]

/-- C3: the code violates the claim.  A delivered message with fewer than two
frames trips `assert!(m.len() > 1)`, a process-terminating panic, instead of
returning the recoverable protocol-violation error the spec requires. -/
theorem c3_short_message_panics (s : RepSocketState) (pid : PeerIdentity)
    (m : ZmqMessage) (h : m.length < 2) :
    RepSocket.recv s (some (pid, m)) = (RecvResult.panicAssert, s) := by
  have hlen : ¬ m.length > 1 := by omega
  simp [RepSocket.recv, hlen]

theorem c3_short_message_panics_witness :
    ([[104]] : ZmqMessage).length < 2 ∧
    RepSocket.recv { envelope := none, current_request := none, peers := [] }
        (some ([67, 49], [[104]]))
      = (RecvResult.panicAssert,
         { envelope := none, current_request := none, peers := [] }) :=
  ⟨by decide,
   c3_short_message_panics
     { envelope := none, current_request := none, peers := [] }
     [67, 49] [[104]] (by decide)⟩

/-- C4: when a pending identity exists but is no longer in the peer registry,
`send` fails with the recoverable "Client disconnected" error carrying the
original message back unmodified, performs no sink push (the registry is
untouched), clears only the pending identity and leaves the saved envelope in
place. -/
theorem c4_send_to_vanished_peer (s : RepSocketState) (msg : ZmqMessage)
    (pid : PeerIdentity) (sinkOk : Bool)
    (hreq : s.current_request = some pid)
    (hpeer : lookupPeer s.peers pid = none) :
    RepSocket.send s msg sinkOk
      = (SendResult.returnToSender "Client disconnected" msg,
         { s with current_request := none }) := by
  simp [RepSocket.send, hreq, hpeer]

theorem c4_send_to_vanished_peer_witness :
    ({ envelope := some [[]], current_request := some [9],
       peers := [([67, 49], [])] } : RepSocketState).current_request = some [9] ∧
    lookupPeer [([67, 49], [])] [9] = none ∧
    RepSocket.send
        { envelope := some [[]], current_request := some [9],
          peers := [([67, 49], [])] } [[1]] true
      = (SendResult.returnToSender "Client disconnected" [[1]],
         { envelope := some [[]], current_request := none,
           peers := [([67, 49], [])] }) :=
  ⟨by decide, by decide,
   c4_send_to_vanished_peer
     { envelope := some [[]], current_request := some [9],
       peers := [([67, 49], [])] }
     [[1]] [9] true rfl (by decide)⟩

/-- C5: with no pending identity, `send` fails with the recoverable
"Unable to send reply. No request in progress" error carrying the argument
message back, leaves the state entirely unchanged (no I/O), and therefore an
immediately repeated call fails the same way. -/
theorem c5_send_without_pending (s : RepSocketState) (msg msg2 : ZmqMessage)
    (sinkOk sinkOk2 : Bool) (hreq : s.current_request = none) :
    RepSocket.send s msg sinkOk
      = (SendResult.returnToSender
           "Unable to send reply. No request in progress" msg, s) ∧
    RepSocket.send (RepSocket.send s msg sinkOk).2 msg2 sinkOk2
      = (SendResult.returnToSender
           "Unable to send reply. No request in progress" msg2, s) := by
  have h1 : RepSocket.send s msg sinkOk
      = (SendResult.returnToSender
           "Unable to send reply. No request in progress" msg, s) := by
    simp [RepSocket.send, hreq]
  refine ⟨h1, ?_⟩
  rw [h1]
  simp [RepSocket.send, hreq]

theorem c5_send_without_pending_witness :
    ({ envelope := none, current_request := none,
       peers := [([67, 49], [])] } : RepSocketState).current_request = none ∧
    RepSocket.send
        { envelope := none, current_request := none, peers := [([67, 49], [])] }
        [[1]] true
      = (SendResult.returnToSender
           "Unable to send reply. No request in progress" [[1]],
         { envelope := none, current_request := none,
           peers := [([67, 49], [])] }) :=
  ⟨rfl,
   (c5_send_without_pending
     { envelope := none, current_request := none, peers := [([67, 49], [])] }
     [[1]] [[2]] true true rfl).1⟩

/-- C6: `send` takes the pending identity first, so after every call —
success, return-to-sender failure, or sink failure — the pending-identity
slot is empty. -/
theorem c6_pending_identity_consumed (s : RepSocketState) (msg : ZmqMessage)
    (sinkOk : Bool) :
    ((RepSocket.send s msg sinkOk).2).current_request = none := by
  rcases hs : s.current_request with _ | pid
  · simp [RepSocket.send, hs]
  · rcases hp : lookupPeer s.peers pid with _ | sink
    · simp [RepSocket.send, hs, hp]
    · rcases sinkOk <;> simp [RepSocket.send, hs, hp]

/-- C10: when the pending identity resolves to a registered peer but the sink
push fails, the error carries no message, nothing is pushed (registry
unchanged), and both the pending identity and the saved envelope were already
consumed before the failure. -/
theorem c10_sink_failure_consumes_state (s : RepSocketState) (msg : ZmqMessage)
    (pid : PeerIdentity) (sink : PeerSink)
    (hreq : s.current_request = some pid)
    (hpeer : lookupPeer s.peers pid = some sink) :
    RepSocket.send s msg false
      = (SendResult.sinkError,
         { s with current_request := none, envelope := none }) := by
  simp [RepSocket.send, hreq, hpeer]

theorem c10_sink_failure_consumes_state_witness :
    ({ envelope := some [[]], current_request := some [67, 49],
       peers := [([67, 49], [])] } : RepSocketState).current_request
      = some [67, 49] ∧
    lookupPeer [([67, 49], [])] [67, 49] = some [] ∧
    RepSocket.send
        { envelope := some [[]], current_request := some [67, 49],
          peers := [([67, 49], [])] } [[1]] false
      = (SendResult.sinkError,
         { envelope := none, current_request := none,
           peers := [([67, 49], [])] }) :=
  ⟨rfl, by decide,
   c10_sink_failure_consumes_state
     { envelope := some [[]], current_request := some [67, 49],
       peers := [([67, 49], [])] }
     [[1]] [67, 49] [] rfl (by decide)⟩

/-- C2: for a delivered message of at least two frames, `recv` splits at the
index one past the first empty frame (or at 1 when no frame is empty), saves
the prefix before the split as the envelope and returns the suffix from the
split on as payload. -/
theorem c2_envelope_split_rule (s : RepSocketState) (pid : PeerIdentity)
    (m : ZmqMessage) (h : 2 ≤ m.length) :
    ∃ j, SplitPointSpec m j ∧
      (RepSocket.recv s (some (pid, m))).1 = RecvResult.ok (m.drop j) ∧
      ((RepSocket.recv s (some (pid, m))).2).envelope = some (m.take j) ∧
      ((RepSocket.recv s (some (pid, m))).2).current_request = some pid := by
  have hlen : m.length > 1 := by omega
  exact ⟨envelopeSplitAt m, splitPointSpec_envelopeSplitAt m,
    by simp [RepSocket.recv, hlen], by simp [RepSocket.recv, hlen],
    by simp [RepSocket.recv, hlen]⟩

theorem c2_envelope_split_rule_witness :
    2 ≤ ([[7], [], [8]] : ZmqMessage).length ∧
    (∃ j, SplitPointSpec ([[7], [], [8]] : ZmqMessage) j ∧
      (RepSocket.recv { envelope := none, current_request := none, peers := [] }
          (some ([67, 49], [[7], [], [8]]))).1
        = RecvResult.ok (([[7], [], [8]] : ZmqMessage).drop j) ∧
      ((RepSocket.recv { envelope := none, current_request := none, peers := [] }
          (some ([67, 49], [[7], [], [8]]))).2).envelope
        = some (([[7], [], [8]] : ZmqMessage).take j) ∧
      ((RepSocket.recv { envelope := none, current_request := none, peers := [] }
          (some ([67, 49], [[7], [], [8]]))).2).current_request
        = some [67, 49]) :=
  ⟨by decide,
   c2_envelope_split_rule
     { envelope := none, current_request := none, peers := [] }
     [67, 49] [[7], [], [8]] (by decide)⟩

/-- C7: a successful `recv` unconditionally overwrites the pending exchange;
two `recv` calls without an intervening `send` leave the second message's
envelope and peer identity, discarding the first's. -/
theorem c7_second_recv_overwrites (s : RepSocketState) (pid1 pid2 : PeerIdentity)
    (m1 m2 : ZmqMessage) (h1 : 2 ≤ m1.length) (h2 : 2 ≤ m2.length) :
    ((RepSocket.recv s (some (pid1, m1))).2).envelope
      = some (m1.take (envelopeSplitAt m1)) ∧
    ((RepSocket.recv s (some (pid1, m1))).2).current_request = some pid1 ∧
    ((RepSocket.recv (RepSocket.recv s (some (pid1, m1))).2
        (some (pid2, m2))).2).envelope = some (m2.take (envelopeSplitAt m2)) ∧
    ((RepSocket.recv (RepSocket.recv s (some (pid1, m1))).2
        (some (pid2, m2))).2).current_request = some pid2 := by
  have hl1 : m1.length > 1 := by omega
  have hl2 : m2.length > 1 := by omega
  refine ⟨by simp [RepSocket.recv, hl1], by simp [RepSocket.recv, hl1], ?_, ?_⟩
  · simp [RepSocket.recv, hl1, hl2]
  · simp [RepSocket.recv, hl1, hl2]

theorem c7_second_recv_overwrites_witness :
    2 ≤ ([[1], [], [2]] : ZmqMessage).length ∧
    2 ≤ ([[3], [], [4]] : ZmqMessage).length ∧
    (((RepSocket.recv { envelope := none, current_request := none, peers := [] }
        (some ([5], [[1], [], [2]]))).2).envelope
      = some (([[1], [], [2]] : ZmqMessage).take
          (envelopeSplitAt [[1], [], [2]])) ∧
    ((RepSocket.recv { envelope := none, current_request := none, peers := [] }
        (some ([5], [[1], [], [2]]))).2).current_request = some [5] ∧
    ((RepSocket.recv
        (RepSocket.recv { envelope := none, current_request := none, peers := [] }
          (some ([5], [[1], [], [2]]))).2
        (some ([6], [[3], [], [4]]))).2).envelope
      = some (([[3], [], [4]] : ZmqMessage).take
          (envelopeSplitAt [[3], [], [4]])) ∧
    ((RepSocket.recv
        (RepSocket.recv { envelope := none, current_request := none, peers := [] }
          (some ([5], [[1], [], [2]]))).2
        (some ([6], [[3], [], [4]]))).2).current_request = some [6]) :=
  ⟨by decide, by decide,
   c7_second_recv_overwrites
     { envelope := none, current_request := none, peers := [] }
     [5] [6] [[1], [], [2]] [[3], [], [4]] (by decide) (by decide)⟩

/-- C9: when the first empty frame is also the last frame, the whole message
becomes the envelope and `recv` returns a payload with zero frames, violating
the data model's non-empty-message invariant observably. -/
theorem c9_empty_payload (s : RepSocketState) (pid : PeerIdentity)
    (xs : ZmqMessage) (hxs : ∀ f ∈ xs, f ≠ ([] : Frame)) (hne : xs ≠ []) :
    RepSocket.recv s (some (pid, xs ++ [([] : Frame)]))
      = (RecvResult.ok [],
         { s with envelope := some (xs ++ [([] : Frame)]),
                  current_request := some pid }) := by
  have hlen : (xs ++ [([] : Frame)]).length > 1 := by
    have : xs.length ≠ 0 := fun h0 => hne (List.length_eq_zero.mp h0)
    simp [List.length_append]
    omega
  have hsplit : envelopeSplitAt (xs ++ [([] : Frame)]) = xs.length + 1 := by
    simp [envelopeSplitAt, firstEmptyIdx_append xs [] hxs]
  have htake : (xs ++ [([] : Frame)]).take (xs.length + 1) = xs ++ [([] : Frame)] := by
    have hl : (xs ++ [([] : Frame)]).length = xs.length + 1 := by
      simp [List.length_append]
    rw [← hl, List.take_length]
  have hdrop : (xs ++ [([] : Frame)]).drop (xs.length + 1) = [] := by
    have hl : (xs ++ [([] : Frame)]).length = xs.length + 1 := by
      simp [List.length_append]
    rw [← hl, List.drop_length]
  simp [RepSocket.recv, hlen, hsplit, htake, hdrop, hne]

theorem c9_empty_payload_witness :
    (∀ f ∈ ([[1]] : ZmqMessage), f ≠ ([] : Frame)) ∧
    ([[1]] : ZmqMessage) ≠ [] ∧
    RepSocket.recv { envelope := none, current_request := none, peers := [] }
        (some ([67, 49], [[1], []]))
      = (RecvResult.ok [],
         { envelope := some [[1], []], current_request := some [67, 49],
           peers := [] }) :=
  ⟨by decide, by decide,
   c9_empty_payload
     { envelope := none, current_request := none, peers := [] }
     [67, 49] [[1]] (by decide) (by decide)⟩

/-- C1: round-trip.  A peer delivers `[routing frames, empty delimiter, F]`
(routing frames non-empty, `F` non-empty); `recv` returns exactly `F`, and a
following `send R` succeeds and pushes `[routing frames, empty delimiter, R]`
onto that same peer's outbound sink, the saved envelope prepended verbatim. -/
theorem c1_round_trip (s : RepSocketState) (pid : PeerIdentity)
    (routing F R : ZmqMessage) (sink : PeerSink)
    (hroute : ∀ r ∈ routing, r ≠ ([] : Frame)) (hF : F ≠ [])
    (hpeer : lookupPeer s.peers pid = some sink) :
    (RepSocket.recv s (some (pid, routing ++ ([] : Frame) :: F))).1
      = RecvResult.ok F ∧
    (RepSocket.send
        ((RepSocket.recv s (some (pid, routing ++ ([] : Frame) :: F))).2)
        R true).1 = SendResult.ok ∧
    lookupPeer
        ((RepSocket.send
            ((RepSocket.recv s (some (pid, routing ++ ([] : Frame) :: F))).2)
            R true).2).peers pid
      = some (sink ++ [routing ++ ([] : Frame) :: R]) := by
  have hF1 : F.length ≠ 0 := fun h0 => hF (List.length_eq_zero.mp h0)
  have hlen : (routing ++ ([] : Frame) :: F).length > 1 := by
    simp [List.length_append]
    omega
  have hsplit : envelopeSplitAt (routing ++ ([] : Frame) :: F)
      = routing.length + 1 := by
    simp [envelopeSplitAt, firstEmptyIdx_append routing F hroute]
  have htake : (routing ++ ([] : Frame) :: F).take (routing.length + 1)
      = routing ++ [([] : Frame)] := by
    have h := (List.take_append 1 :
      (routing ++ ([] : Frame) :: F).take (routing.length + 1)
        = routing ++ (([] : Frame) :: F).take 1)
    simpa using h
  have hdrop : (routing ++ ([] : Frame) :: F).drop (routing.length + 1) = F := by
    have h := (List.drop_append 1 :
      (routing ++ ([] : Frame) :: F).drop (routing.length + 1)
        = (([] : Frame) :: F).drop 1)
    exact h
  have hrecv : RepSocket.recv s (some (pid, routing ++ ([] : Frame) :: F))
      = (RecvResult.ok F,
         { s with envelope := some (routing ++ [([] : Frame)]),
                  current_request := some pid }) := by
    simp [RepSocket.recv, hsplit, htake, hdrop]
    omega
  refine ⟨by rw [hrecv], ?_, ?_⟩
  · rw [hrecv]
    simp [RepSocket.send, hpeer]
  · rw [hrecv]
    simp [RepSocket.send, hpeer, lookupPeer_pushToPeer, List.append_assoc]

theorem c1_round_trip_witness :
    (∀ r ∈ ([] : ZmqMessage), r ≠ ([] : Frame)) ∧
    ([[104, 101, 108, 108, 111]] : ZmqMessage) ≠ [] ∧
    lookupPeer [([67, 49], ([] : PeerSink))] [67, 49] = some [] ∧
    (RepSocket.recv
        { envelope := none, current_request := none,
          peers := [([67, 49], [])] }
        (some ([67, 49], [([] : Frame), [104, 101, 108, 108, 111]]))).1
      = RecvResult.ok [[104, 101, 108, 108, 111]] ∧
    (RepSocket.send
        ((RepSocket.recv
            { envelope := none, current_request := none,
              peers := [([67, 49], [])] }
            (some ([67, 49], [([] : Frame), [104, 101, 108, 108, 111]]))).2)
        [[119, 111, 114, 108, 100]] true).1 = SendResult.ok ∧
    lookupPeer
        ((RepSocket.send
            ((RepSocket.recv
                { envelope := none, current_request := none,
                  peers := [([67, 49], [])] }
                (some ([67, 49], [([] : Frame), [104, 101, 108, 108, 111]]))).2)
            [[119, 111, 114, 108, 100]] true).2).peers [67, 49]
      = some [[([] : Frame), [119, 111, 114, 108, 100]]] :=
  ⟨by decide, by decide, by decide,
   (c1_round_trip
     { envelope := none, current_request := none, peers := [([67, 49], [])] }
     [67, 49] [] [[104, 101, 108, 108, 111]] [[119, 111, 114, 108, 100]] []
     (by decide) (by decide) (by decide)).1,
   (c1_round_trip
     { envelope := none, current_request := none, peers := [([67, 49], [])] }
     [67, 49] [] [[104, 101, 108, 108, 111]] [[119, 111, 114, 108, 100]] []
     (by decide) (by decide) (by decide)).2.1,
   (c1_round_trip
     { envelope := none, current_request := none, peers := [([67, 49], [])] }
     [67, 49] [] [[104, 101, 108, 108, 111]] [[119, 111, 114, 108, 100]] []
     (by decide) (by decide) (by decide)).2.2⟩

/-- C8: the disconnect hook removes exactly the given identity's entry from
the outbound peer registry (so later sends to it fail fast), leaves the
receive-side fair-queue registry unchanged, and performs a best-effort
`Disconnected` push on the monitor exactly when one is attached. -/
theorem c8_disconnect_hook (b : BackendState) (pid : PeerIdentity) :
    (∀ q, q ∈ (peer_disconnected b pid).peers ↔ q ∈ b.peers ∧ q.1 ≠ pid) ∧
    lookupPeer (peer_disconnected b pid).peers pid = none ∧
    (peer_disconnected b pid).fair_queue_inner = b.fair_queue_inner ∧
    (peer_disconnected b pid).socket_monitor
      = (b.socket_monitor).map
          (fun mon => mon.try_send (SocketEvent.disconnected pid)) := by
  rcases hm : b.socket_monitor with _ | mon <;>
    exact ⟨fun q => by simp [peer_disconnected, hm, List.mem_filter],
      by simp [peer_disconnected, hm, lookupPeer_filter_ne],
      by simp [peer_disconnected, hm],
      by simp [peer_disconnected, hm]⟩

end ZmqRep
